import Mathlib

/-!
Verification development for the Greenhouse-rs controller
(`src/main.rs`).  The definitions below are a shallow embedding of the
program: `u8`/`u16` fields become `ℕ` (no operation on a reachable value
overflows the machine width; where the source reduces modulo a range the
`%` is kept literally), `f32` sensor values and bands become `ℚ` (only
order comparisons and exact decimal constants are used on them), digital
pins become `Bool`, and the hardware input streams (buttons, smoke
detector, sensor readings) become explicit input values consumed one per
poll.  A Rust `unwrap()` on `None` (a panic) and the fail-stop
alarm-blink loop are modelled as an aborted run.
-/

/-- The `date` tuple of `Preferences`:
`(u8, u8, u8, u8, u8, u16) // Sec, Min, Hour, Day, Month, Year`. -/
structure DateT where
  sec : ℕ
  min : ℕ
  hour : ℕ
  day : ℕ
  month : ℕ
  year : ℕ
deriving DecidableEq

/-- `Preferences::is_leap_year`:
`year % 4 == 0 && (year % 100 != 0 || year % 400 == 0)`. -/
def is_leap_year (year : ℕ) : Bool :=
  year % 4 == 0 && (year % 100 != 0 || year % 400 == 0)

/-- The `days_in_month` match that appears (twice, identically) in
`Preferences::tick_time` and `Preferences::change_days`:
`2 => 28/29, 4|6|9|11 => 30, _ => 31`. -/
def days_in_month (month year : ℕ) : ℕ :=
  if month = 2 then (if is_leap_year year then 29 else 28)
  else if month = 4 ∨ month = 6 ∨ month = 9 ∨ month = 11 then 30
  else 31

/-- The day/month rollover `loop` at the end of `Preferences::tick_time`:
while `day > days_in_month`, subtract it and bump the month, wrapping
month 13 to month 1 with a year carry. -/
def rollover (day month year : ℕ) : ℕ × ℕ × ℕ :=
  if h : day > days_in_month month year then
    let day' := day - days_in_month month year
    let month' := month + 1
    if month' > 12 then rollover day' 1 (year + 1)
    else rollover day' month' year
  else (day, month, year)
termination_by day
decreasing_by
  all_goals
    have hpos : 0 < days_in_month month year := by
      unfold days_in_month
      split
      · split <;> omega
      · split <;> omega
    omega

/-- `pub struct Preferences` (the lcd/sensor handles are not part of it).
Rust tuple components `.0`, `.1` of the `f32` pairs are Lean `.1`, `.2`.
`watering` is `Option<(u8, u8, u8, u8)> // Start (Min, Hour), End (Min, Hour)`. -/
structure Preferences where
  temperature : ℚ × ℚ
  humidity : ℚ × ℚ
  date : DateT
  watering : Option (ℕ × ℕ × ℕ × ℕ)
deriving DecidableEq

/-- `impl Default for Preferences`. -/
def Preferences.default : Preferences :=
  { temperature := (60.0, 80.0)       -- Ideal range is 60F - 80F
    humidity := (0.6, 0.7)            -- Ideal range is 60% - 70%
    date := ⟨0, 0, 0, 1, 1, 2000⟩     -- Date: 00:00:00 Jan 1 2000
    watering := none }                -- No default watering times set

/-- `Preferences::tick_time`.  The locals `(sec, min, hour, day, month,
year)` are destructured from `self.date` before any write, so every
range check below tests the OLD field value; and when `sec + 1 < 60` the
function returns WITHOUT writing the incremented second back (the `else
{ return; }` branch stores nothing). -/
def tick_time (p : Preferences) : Preferences :=
  let sec := p.date.sec + 1
  let min := p.date.min
  let hour := p.date.hour
  let day := p.date.day
  let month := p.date.month
  let year := p.date.year
  if sec ≥ 60 then
    -- self.date.1 += sec / 60; self.date.0 = sec % 60;
    let d1 : DateT := { p.date with min := p.date.min + sec / 60, sec := sec % 60 }
    if min ≥ 60 then
      -- self.date.2 += min / 60; self.date.1 = min % 60;
      let d2 : DateT := { d1 with hour := d1.hour + min / 60, min := min % 60 }
      if hour ≥ 24 then
        -- day += hour / 24; self.date.2 = hour % 24;
        let day := day + hour / 24
        let d3 : DateT := { d2 with hour := hour % 24 }
        let r := rollover day month year
        { p with date := { d3 with day := r.1, month := r.2.1, year := r.2.2 } }
      else { p with date := d2 }
    else { p with date := d1 }
  else p

/-- `Preferences::change_days`: next day index modulo the current
month's day count. -/
def change_days (p : Preferences) (increment : Bool) : ℕ :=
  let dim := days_in_month p.date.month p.date.year
  if increment then (p.date.day + 1) % dim
  else (p.date.day + (dim - 1)) % dim

/-- Date-edit, minute loop, Up: `preferences.date.1 = (preferences.date.1 + 1) % 60`. -/
def minute_up (p : Preferences) : Preferences :=
  { p with date := { p.date with min := (p.date.min + 1) % 60 } }

/-- Date-edit, minute loop, Down: `(preferences.date.1 + 59) % 60`. -/
def minute_down (p : Preferences) : Preferences :=
  { p with date := { p.date with min := (p.date.min + 59) % 60 } }

/-- Date-edit, hour loop, Up: `(preferences.date.2 + 1) % 24`. -/
def hour_up (p : Preferences) : Preferences :=
  { p with date := { p.date with hour := (p.date.hour + 1) % 24 } }

/-- Date-edit, hour loop, Down: `(preferences.date.2 + 23) % 24`. -/
def hour_down (p : Preferences) : Preferences :=
  { p with date := { p.date with hour := (p.date.hour + 23) % 24 } }

/-- Date-edit, day loop, Up: `preferences.date.3 = preferences.change_days(true)`. -/
def day_up (p : Preferences) : Preferences :=
  { p with date := { p.date with day := change_days p true } }

/-- Date-edit, day loop, Down: `preferences.change_days(false)`. -/
def day_down (p : Preferences) : Preferences :=
  { p with date := { p.date with day := change_days p false } }

/-- Date-edit, month loop, Up: `(preferences.date.4 + 1) % 12`. -/
def month_up (p : Preferences) : Preferences :=
  { p with date := { p.date with month := (p.date.month + 1) % 12 } }

/-- Date-edit, month loop, Down: `(preferences.date.4 + 11) % 12`. -/
def month_down (p : Preferences) : Preferences :=
  { p with date := { p.date with month := (p.date.month + 11) % 12 } }

/-- Date-edit, year loop, Up: `preferences.date.5 += 1` (the source
assumes the u16 limit is never reached). -/
def year_up (p : Preferences) : Preferences :=
  { p with date := { p.date with year := p.date.year + 1 } }

/-- Date-edit, year loop, Down: `if preferences.date.5 != 0 { preferences.date.5 -= 1; }`. -/
def year_down (p : Preferences) : Preferences :=
  { p with date := { p.date with year := if p.date.year ≠ 0 then p.date.year - 1 else p.date.year } }

/-- `Preferences::is_watering_time`: minutes within `[w.0, w.2]` and
hours within `[w.1, w.3]`, each bound checked independently; `false`
when no watering time is set. -/
def is_watering_time (p : Preferences) : Bool :=
  match p.watering with
  | some (wm0, wh0, wm1, wh1) =>
      decide (p.date.min ≥ wm0) &&   -- Minutes are not too small
      decide (p.date.min ≤ wm1) &&   -- Minutes are not too large
      decide (p.date.hour ≥ wh0) &&  -- Hours are not too small
      decide (p.date.hour ≤ wh1)     -- Hours are not too large
  | none => false

/-- `Preferences::set_default_watering_time`: `Some((0, 0, 0, 1))`
(00:00 to 01:00). -/
def set_default_watering_time (p : Preferences) : Preferences :=
  { p with watering := some (0, 0, 0, 1) }

/-- The in-range predicate of the spec's data model: second 0-59,
minute 0-59, hour 0-23, day 1..days_in_month, month 1-12. -/
def Valid (d : DateT) : Prop :=
  d.sec ≤ 59 ∧ d.min ≤ 59 ∧ d.hour ≤ 23 ∧
  1 ≤ d.day ∧ d.day ≤ days_in_month d.month d.year ∧
  1 ≤ d.month ∧ d.month ≤ 12

instance (d : DateT) : Decidable (Valid d) := by
  unfold Valid; infer_instance

/-- The three digital output pins driven by the control loop
(`sprinklers`, `roof_vent`, `buzzer`); `into_output()` starts them low. -/
structure Actuators where
  sprinklers : Bool
  roof_vent : Bool
  buzzer : Bool
deriving DecidableEq

/-- `get_temperature`: Celsius to Fahrenheit, `c * (9/5) + 32`. -/
def get_temperature (tempC : ℚ) : ℚ :=
  tempC * (9 / 5) + 32

/-- `get_pressure`: `hPa * 0.000987` atmospheres. -/
def get_pressure (hPa : ℚ) : ℚ :=
  hPa * 0.000987

/-- The threshold checks of the sensor-poll branch (main.rs lines
560-583), written as the source's three sequential pin writes: the
temperature check drives `roof_vent`, the humidity check drives
`sprinklers`, and the watering-time check then drives `sprinklers`
again, overwriting the humidity-driven value. `tempF` is the already
converted `get_temperature(&data)` value. -/
def sensor_branch (tempF hum : ℚ) (p : Preferences) (a : Actuators) : Actuators :=
  -- if temp < preferences.temperature.0 || temp > preferences.temperature.1 { open vent }
  let a := { a with roof_vent := decide (tempF < p.temperature.1 ∨ tempF > p.temperature.2) }
  -- if humidity < preferences.humidity.0 || humidity > preferences.humidity.1 { enable sprinklers }
  let a := { a with sprinklers := decide (hum < p.humidity.1 ∨ hum > p.humidity.2) }
  -- if preferences.is_watering_time() { sprinklers.set_high() } else { sprinklers.set_low() }
  let a := { a with sprinklers := is_watering_time p }
  a

/-- `enum Screen`. -/
inductive Screen where
  | Loading
  | Warning
  | Temp
  | Humidity
  | Pressure
  | Date
  | Watering
deriving DecidableEq

/-- `get_screen`: the index-to-screen match, `None` off `0..=4`. -/
def get_screen (index : ℤ) : Option Screen :=
  if index = 0 then some Screen.Temp
  else if index = 1 then some Screen.Humidity
  else if index = 2 then some Screen.Pressure
  else if index = 3 then some Screen.Date
  else if index = 4 then some Screen.Watering
  else none

/-- The index arithmetic inside `next_screen`: add the offset (`+1` when
`next`, `-1` otherwise) and clamp-wrap negatives to 4 and values above 4
to 0.  This acts on `next_screen`'s BY-VALUE copy of the index; the
caller's `current_screen_index` is unaffected. -/
def next_screen_index (current : ℤ) (next : Bool) : ℤ :=
  let offset : ℤ := if next then 1 else -1
  let current := current + offset
  if current < 0 then 4
  else if current > 4 then 0
  else current

/-- `next_screen`: returns the screen of the wrapped index (the source
unwraps; the wrapped index is always in `0..=4` so the lookup is `some`). -/
def next_screen (current : ℤ) (next : Bool) : Option Screen :=
  get_screen (next_screen_index current next)

/-- `enum RefreshAction`. -/
inductive RefreshAction where
  | UP
  | DOWN
  | SELECT
  | SENSOR
deriving DecidableEq

/-- `button_usable`: the cooldown is inactive when the counter is 0. -/
def button_usable (cooldown : ℕ) : Bool :=
  cooldown == 0

/-- `tick_buttons(mut cooldown: u8)`: the value computed on the callee's
stack.  The `u8` argument is passed BY VALUE, so this result is
discarded and the caller's `button_cooldown` is never changed; the main
loop below therefore does not apply this function to its state. -/
def tick_buttons (cooldown : ℕ) : ℕ :=
  if cooldown > 0 then cooldown - 1 else cooldown

/-- One poll of the hardware inputs: the three buttons, the smoke
detector, and the sensor-read outcome used when the loop reaches a read
(`bme_ok = false` models `set_sensor_mode` failing in `prep_bme`). -/
structure Input where
  up : Bool
  down : Bool
  select : Bool
  fire : Bool
  bme_ok : Bool
  tempC : ℚ
  hum : ℚ
deriving DecidableEq

/-- `should_update`.  `wait_time` arrives BY VALUE (main's binding is the
non-`mut` constant 0), so the increment and the reset to 0 are local;
`preferences` is `&mut`, so the `tick_time` call (only when the local
counter hits a multiple of 100) is visible to the caller.  The dead
`wait_time < 0` test on a `u16` is dropped. -/
def should_update (i : Input) (wait_time : ℕ) (p : Preferences) :
    Preferences × Bool × RefreshAction :=
  let wt := wait_time + 1
  let p := if wt % 100 = 0 then tick_time p else p
  -- Prioritize button pressing
  if i.up then (p, true, RefreshAction.UP)
  else if i.down then (p, true, RefreshAction.DOWN)
  else if i.select then (p, true, RefreshAction.SELECT)
  else if wt ≥ 100 then (p, true, RefreshAction.SENSOR)
  else (p, false, RefreshAction.SENSOR)

/-- The `while fire_present(&smoke_detector)` alarm loop, fuel-indexed:
each iteration re-polls the smoke input at the cursor, forces sprinklers
high / roof vent low / buzzer high, and ticks the calendar.  Returns
`(fuel left, cursor, preferences, actuators, fuel ran out)`. -/
def fire_alarm_loop (inp : ℕ → Input) : ℕ → ℕ → Preferences → Actuators →
    ℕ × ℕ × Preferences × Actuators × Bool
  | 0, c, p, a => (0, c, p, a, true)
  | fuel + 1, c, p, a =>
      if (inp c).fire then
        let a := { a with sprinklers := true, roof_vent := false, buzzer := true }
        -- Still keep track of time though
        let p := tick_time p
        fire_alarm_loop inp fuel (c + 1) p a
      else (fuel + 1, c + 1, p, a, false)

/-- The fire-override block of the main loop (main.rs lines 534-556):
when the first smoke poll is high, remember `roof_open`, run the alarm
loop, then on exit drop the buzzer and sprinklers and re-open the vent
only if it was open before the alarm. -/
def fire_override (inp : ℕ → Input) (fuel c : ℕ) (fire_now : Bool)
    (p : Preferences) (a : Actuators) : ℕ × ℕ × Preferences × Actuators × Bool :=
  if fire_now then
    let roof_open := a.roof_vent
    let r := fire_alarm_loop inp fuel c p a
    let (fuel', c', p', a', fuelOut) := r
    if fuelOut then (fuel', c', p', a', true)
    else
      -- Safe; Disable sprinklers and open vent if it was open before
      (fuel', c', p',
        { a' with buzzer := false, sprinklers := false,
                  roof_vent := if roof_open then true else a'.roof_vent }, false)
  else (fuel, c, p, a, false)

/-- The Up-press body of the watering-window edit loop (main.rs lines
466-486).  When no window is set it materializes the default window;
otherwise the source writes `preferences.watering.unwrap().K = ...`:
`unwrap()` on a `Copy` option returns a TEMPORARY copy of the tuple, the
field assignment lands on that temporary (bound to `_assigned` below and
discarded), and the stored `preferences.watering` is left unchanged. -/
def watering_up_press (p : Preferences) (index : ℕ) : Preferences :=
  if p.watering.isNone then set_default_watering_time p
  else
    match p.watering, index with
    | some (m0, h0, m1, h1), 0 =>
        let _assigned := (m0, (h0 + 1) % 24, m1, h1)
        p
    | some (m0, h0, m1, h1), 1 =>
        let _assigned := ((m0 + 1) % 60, h0, m1, h1)
        p
    | some (m0, h0, m1, h1), 2 =>
        let _assigned := (m0, h0, m1, (h1 + 1) % 24)
        p
    | some (m0, h0, m1, h1), 3 =>
        let _assigned := (m0, h0, (m1 + 1) % 60, h1)
        p
    | _, _ => p

/-- The Down-press body of the watering-window edit loop (main.rs lines
487-507); same discarded-temporary behaviour as `watering_up_press`. -/
def watering_down_press (p : Preferences) (index : ℕ) : Preferences :=
  if p.watering.isNone then set_default_watering_time p
  else
    match p.watering, index with
    | some (m0, h0, m1, h1), 0 =>
        let _assigned := (m0, (h0 + 23) % 24, m1, h1)
        p
    | some (m0, h0, m1, h1), 1 =>
        let _assigned := ((m0 + 59) % 60, h0, m1, h1)
        p
    | some (m0, h0, m1, h1), 2 =>
        let _assigned := (m0, h0, m1, (h1 + 23) % 24)
        p
    | some (m0, h0, m1, h1), 3 =>
        let _assigned := (m0, h0, (m1 + 59) % 60, h1)
        p
    | _, _ => p

/-- One sub-field `loop` of the watering-window edit session, at a fixed
sub-field `index`.  Per iteration: (rendering and the 500 ms delay have
no state effect), tick the calendar on every other iteration, then test
Up+Down (remove gesture, breaks), Up, Down, Select (breaks) in the
source's order.  Returns `(fuel, cursor, update_date, prefs, remove,
fuel ran out)`. -/
def watering_inner (inp : ℕ → Input) (index : ℕ) : ℕ → ℕ → Bool → Preferences →
    ℕ × ℕ × Bool × Preferences × Bool × Bool
  | 0, c, ud, p => (0, c, ud, p, false, true)
  | fuel + 1, c, ud, p =>
      let i := inp c
      let p := if ud then tick_time p else p
      let ud := !ud
      if i.up && i.down then (fuel, c + 1, ud, p, true, false)
      else if i.up then watering_inner inp index fuel (c + 1) ud (watering_up_press p index)
      else if i.down then watering_inner inp index fuel (c + 1) ud (watering_down_press p index)
      else if i.select then (fuel, c + 1, ud, p, false, false)
      else watering_inner inp index fuel (c + 1) ud p

/-- The `for index in 0..4` driver of the watering edit session:
runs the remaining sub-field loops, stopping early on the remove
gesture (or when fuel runs out mid-loop). -/
def watering_indices (inp : ℕ → Input) : List ℕ → ℕ → ℕ → Bool → Preferences →
    ℕ × ℕ × Bool × Preferences × Bool × Bool
  | [], fuel, c, ud, p => (fuel, c, ud, p, false, false)
  | index :: rest, fuel, c, ud, p =>
      let r := watering_inner inp index fuel c ud p
      let (fuel', c', ud', p', remove, fuelOut) := r
      if fuelOut then (fuel', c', ud', p', remove, true)
      else if remove then (fuel', c', ud', p', true, false)
      else watering_indices inp rest fuel' c' ud' p'

/-- The post-edit legality check of the watering session (main.rs lines
518-526): `preferences.watering.unwrap()` — `none` here is the `unwrap`
panic — then swap the two endpoints when the start sorts after the end
(hours first, minutes on equal hours). -/
def watering_legality (p : Preferences) : Option Preferences :=
  match p.watering with
  | none => none
  | some (m0, h0, m1, h1) =>
      if h0 > h1 ∨ (h0 = h1 ∧ m0 > m1) then
        some { p with watering := some (m1, h1, m0, h0) }
      else some p

/-- The whole watering-window edit session (screen index 4 of the SELECT
handler): the four sub-field loops, then — only when the remove gesture
did not fire and fuel did not run out — the legality check, whose
`unwrap` panic is the `none` result.  Note the remove path merely skips
the legality check: nothing ever assigns `None` to `preferences.watering`.
Returns `(fuel, cursor, update_date, prefs, fuel ran out)`. -/
def watering_session (inp : ℕ → Input) (fuel c : ℕ) (ud : Bool) (p : Preferences) :
    Option (ℕ × ℕ × Bool × Preferences × Bool) :=
  let r := watering_indices inp [0, 1, 2, 3] fuel c ud p
  let (fuel', c', ud', p', remove, fuelOut) := r
  if fuelOut then some (fuel', c', ud', p', true)
  else if remove then some (fuel', c', ud', p', false)
  else
    match watering_legality p' with
    | none => none
    | some p'' => some (fuel', c', ud', p'', false)

/-- One pass (`loop`) of the temperature edit session (main.rs lines
190-233).  The Up branch reproduces the source's guard `if
preferences.temperature.K < 1.0` (copied, apparently, from the humidity
pass) and the Down branch its `> 0.0` guard; Select breaks the pass and
clears `editing_lower`.  Returns `(fuel, cursor, update_date,
editing_lower, prefs, fuel ran out)`. -/
def temp_inner (inp : ℕ → Input) : ℕ → ℕ → Bool → Bool → Preferences →
    ℕ × ℕ × Bool × Bool × Preferences × Bool
  | 0, c, ud, el, p => (0, c, ud, el, p, true)
  | fuel + 1, c, ud, el, p =>
      let i := inp c
      let p := if ud then tick_time p else p
      let ud := !ud
      if i.up then
        let p :=
          if el then
            (if p.temperature.1 < 1 then { p with temperature := (p.temperature.1 + 1, p.temperature.2) } else p)
          else
            (if p.temperature.2 < 1 then { p with temperature := (p.temperature.1, p.temperature.2 + 1) } else p)
        temp_inner inp fuel (c + 1) ud el p
      else if i.down then
        let p :=
          if el then
            (if p.temperature.1 > 0 then { p with temperature := (p.temperature.1 - 1, p.temperature.2) } else p)
          else
            (if p.temperature.2 > 0 then { p with temperature := (p.temperature.1, p.temperature.2 - 1) } else p)
        temp_inner inp fuel (c + 1) ud el p
      else if i.select then (fuel, c + 1, ud, false, p, false)
      else temp_inner inp fuel (c + 1) ud el p

/-- The temperature edit session (screen index 0): two passes sharing
`editing_lower` and `update_date`, then the legality swap when
`low > high`.  Returns `(fuel, cursor, prefs, fuel ran out)`. -/
def temp_session (inp : ℕ → Input) (fuel c : ℕ) (p : Preferences) :
    ℕ × ℕ × Preferences × Bool :=
  let r1 := temp_inner inp fuel c false true p
  let (f1, c1, ud1, el1, p1, fo1) := r1
  if fo1 then (f1, c1, p1, true)
  else
    let r2 := temp_inner inp f1 c1 ud1 el1 p1
    let (f2, c2, _, _, p2, fo2) := r2
    if fo2 then (f2, c2, p2, true)
    else
      -- Check legality
      let p3 :=
        if p2.temperature.1 > p2.temperature.2 then
          { p2 with temperature := (p2.temperature.2, p2.temperature.1) }
        else p2
      (f2, c2, p3, false)

/-- One pass of the humidity edit session (main.rs lines 244-288):
like the temperature pass with ±0.01 steps inside the same `(0,1)`
guards. -/
def humidity_inner (inp : ℕ → Input) : ℕ → ℕ → Bool → Bool → Preferences →
    ℕ × ℕ × Bool × Bool × Preferences × Bool
  | 0, c, ud, el, p => (0, c, ud, el, p, true)
  | fuel + 1, c, ud, el, p =>
      let i := inp c
      let p := if ud then tick_time p else p
      let ud := !ud
      if i.up then
        let p :=
          if el then
            (if p.humidity.1 < 1 then { p with humidity := (p.humidity.1 + 1/100, p.humidity.2) } else p)
          else
            (if p.humidity.2 < 1 then { p with humidity := (p.humidity.1, p.humidity.2 + 1/100) } else p)
        humidity_inner inp fuel (c + 1) ud el p
      else if i.down then
        let p :=
          if el then
            (if p.humidity.1 > 0 then { p with humidity := (p.humidity.1 - 1/100, p.humidity.2) } else p)
          else
            (if p.humidity.2 > 0 then { p with humidity := (p.humidity.1, p.humidity.2 - 1/100) } else p)
        humidity_inner inp fuel (c + 1) ud el p
      else if i.select then (fuel, c + 1, ud, false, p, false)
      else humidity_inner inp fuel (c + 1) ud el p

/-- The humidity edit session (screen index 1): two passes, then the
legality swap. -/
def humidity_session (inp : ℕ → Input) (fuel c : ℕ) (p : Preferences) :
    ℕ × ℕ × Preferences × Bool :=
  let r1 := humidity_inner inp fuel c false true p
  let (f1, c1, ud1, el1, p1, fo1) := r1
  if fo1 then (f1, c1, p1, true)
  else
    let r2 := humidity_inner inp f1 c1 ud1 el1 p1
    let (f2, c2, _, _, p2, fo2) := r2
    if fo2 then (f2, c2, p2, true)
    else
      let p3 :=
        if p2.humidity.1 > p2.humidity.2 then
          { p2 with humidity := (p2.humidity.2, p2.humidity.1) }
        else p2
      (f2, c2, p3, false)

/-- The Up/Down dispatch of the five date sub-field loops, in source
order: 0 minute, 1 hour, 2 day, 3 month, 4 year. -/
def date_field_up (p : Preferences) (field : ℕ) : Preferences :=
  if field = 0 then minute_up p
  else if field = 1 then hour_up p
  else if field = 2 then day_up p
  else if field = 3 then month_up p
  else year_up p

/-- Down counterpart of `date_field_up`. -/
def date_field_down (p : Preferences) (field : ℕ) : Preferences :=
  if field = 0 then minute_down p
  else if field = 1 then hour_down p
  else if field = 2 then day_down p
  else if field = 3 then month_down p
  else year_down p

/-- One sub-field `loop` of the date edit session (main.rs lines
301-440), at a fixed sub-field. -/
def date_inner (inp : ℕ → Input) (field : ℕ) : ℕ → ℕ → Bool → Preferences →
    ℕ × ℕ × Bool × Preferences × Bool
  | 0, c, ud, p => (0, c, ud, p, true)
  | fuel + 1, c, ud, p =>
      let i := inp c
      let p := if ud then tick_time p else p
      let ud := !ud
      if i.up then date_inner inp field fuel (c + 1) ud (date_field_up p field)
      else if i.down then date_inner inp field fuel (c + 1) ud (date_field_down p field)
      else if i.select then (fuel, c + 1, ud, p, false)
      else date_inner inp field fuel (c + 1) ud p

/-- The five sequential date sub-field loops of the date edit session
(screen index 3). -/
def date_session_fields (inp : ℕ → Input) : List ℕ → ℕ → ℕ → Bool → Preferences →
    ℕ × ℕ × Bool × Preferences × Bool
  | [], fuel, c, ud, p => (fuel, c, ud, p, false)
  | field :: rest, fuel, c, ud, p =>
      let r := date_inner inp field fuel c ud p
      let (fuel', c', ud', p', fuelOut) := r
      if fuelOut then (fuel', c', ud', p', true)
      else date_session_fields inp rest fuel' c' ud' p'

/-- The date edit session: minute, hour, day, month, year in order. -/
def date_session (inp : ℕ → Input) (fuel c : ℕ) (p : Preferences) :
    ℕ × ℕ × Preferences × Bool :=
  let r := date_session_fields inp [0, 1, 2, 3, 4] fuel c false p
  (r.1, r.2.1, r.2.2.2.1, r.2.2.2.2)

/-- The mutable (and, for `current_screen_index` and `wait_time`,
not-even-`mut`) locals of `main` that the control loop reads, plus the
actuator pins and the last sensor data; `entered_watering` is proof
instrumentation recording that the SELECT handler started the
watering-window edit session. -/
structure MainState where
  button_cooldown : ℕ
  current_screen_index : ℤ
  wait_time : ℕ
  prefs : Preferences
  act : Actuators
  dataTempC : ℚ
  dataHum : ℚ
  entered_watering : Bool
deriving DecidableEq

/-- Result of running the main loop for a bounded number of polls:
either still `running` (with the state and input cursor reached), or
`aborted` — an `unwrap()` panic (under `panic_halt`) or the `prep_bme`
fail-stop alarm-blink loop. -/
inductive RunResult where
  | running : MainState → ℕ → RunResult
  | aborted : RunResult
deriving DecidableEq

/-- The render step at the bottom of the loop body:
`get_screen(current_screen_index).unwrap()` panics on an invalid index;
the rendering itself has no state effect. -/
def render_gate (s : MainState) (k : RunResult) : RunResult :=
  match get_screen s.current_screen_index with
  | none => RunResult.aborted
  | some _ => k

/-- The main app loop, fuel-indexed, consuming one `Input` per poll
(outer iterations and nested edit/alarm loop iterations alike).  The
statement `tick_buttons(button_cooldown)` passes the `u8` by value, so
its result (`_localCooldown`) is discarded and the state's counter is
untouched; likewise the UP/DOWN arms call `next_screen` on a by-value
copy of the non-`mut` `current_screen_index` and discard the returned
screen, so the state's index is never reassigned.  A nested edit/alarm
loop that exhausts its fuel truncates the run (`running` at the state
reached); otherwise the loop continues at the cursor the nested loop
stopped at. -/
def mainRun (inp : ℕ → Input) : ℕ → ℕ → MainState → RunResult
  | 0, c, s => RunResult.running s c
  | fuel + 1, c, s =>
      let i := inp c
      let _localCooldown := tick_buttons s.button_cooldown
      let r := should_update i s.wait_time s.prefs
      let s := { s with prefs := r.1 }
      let update_needed := r.2.1
      if update_needed then
        match r.2.2 with
        | RefreshAction.UP =>
            let s :=
              if button_usable s.button_cooldown then
                let _discarded := next_screen s.current_screen_index true
                { s with button_cooldown := 50 }
              else s
            render_gate s (mainRun inp fuel (c + 1) s)
        | RefreshAction.DOWN =>
            let s :=
              if button_usable s.button_cooldown then
                let _discarded := next_screen s.current_screen_index false
                { s with button_cooldown := 50 }
              else s
            render_gate s (mainRun inp fuel (c + 1) s)
        | RefreshAction.SELECT =>
            if button_usable s.button_cooldown then
              -- lcd.clean_display(); editing_lower/update_date/refresh are session-local
              if s.current_screen_index = 0 then
                let r := temp_session inp fuel (c + 1) s.prefs
                let s := { s with prefs := r.2.2.1 }
                if r.2.2.2 then RunResult.running s r.2.1
                else render_gate s (mainRun inp fuel r.2.1 s)
              else if s.current_screen_index = 1 then
                let r := humidity_session inp fuel (c + 1) s.prefs
                let s := { s with prefs := r.2.2.1 }
                if r.2.2.2 then RunResult.running s r.2.1
                else render_gate s (mainRun inp fuel r.2.1 s)
              else if s.current_screen_index = 3 then
                let r := date_session inp fuel (c + 1) s.prefs
                let s := { s with prefs := r.2.2.1 }
                if r.2.2.2 then RunResult.running s r.2.1
                else render_gate s (mainRun inp fuel r.2.1 s)
              else if s.current_screen_index = 4 then
                let s := { s with entered_watering := true }
                match watering_session inp fuel (c + 1) false s.prefs with
                | none => RunResult.aborted
                | some (_, c', _, p', fuelOut) =>
                    let s := { s with prefs := p' }
                    if fuelOut then RunResult.running s c'
                    else render_gate s (mainRun inp fuel c' s)
              else
                -- Pressure has no configuration
                render_gate s (mainRun inp fuel (c + 1) s)
            else render_gate s (mainRun inp fuel (c + 1) s)
        | RefreshAction.SENSOR =>
            let fo := fire_override inp fuel (c + 1) i.fire s.prefs s.act
            let (_, c', p', a', fuelOut) := fo
            let s := { s with prefs := p', act := a' }
            if fuelOut then RunResult.running s c'
            else
              -- data = get_bme_data(...): prep_bme escalates a mode-set
              -- failure to the infinite alarm-blink loop (fail-stop)
              let rd := inp c'
              if !rd.bme_ok then RunResult.aborted
              else
                let s := { s with dataTempC := rd.tempC, dataHum := rd.hum }
                let s := { s with act := sensor_branch (get_temperature rd.tempC) rd.hum s.prefs s.act }
                render_gate s (mainRun inp fuel (c' + 1) s)
      else mainRun inp fuel (c + 1) s

/-- The state at the top of the first loop iteration: cooldown 50,
screen index 0, wait time 0, default preferences, all output pins low,
`FieldData::default()` readings. -/
def greenhouseInit : MainState :=
  { button_cooldown := 50
    current_screen_index := 0
    wait_time := 0
    prefs := Preferences.default
    act := ⟨false, false, false⟩
    dataTempC := 0
    dataHum := 0
    entered_watering := false }

/-- Concrete calendar start state of the one-year tick scenario:
`(0, 0, 0, 1, 1, 2001)` in the default preferences. -/
def c1Start : Preferences :=
  { Preferences.default with date := ⟨0, 0, 0, 1, 1, 2001⟩ }

/-- In-range state one tick before a minute carry meets minute 59. -/
def p5959 : Preferences :=
  { Preferences.default with date := ⟨59, 59, 0, 1, 1, 2000⟩ }

/-- In-range state with month 11 (for the month-edit wraparound). -/
def pM11 : Preferences :=
  { Preferences.default with date := ⟨0, 0, 0, 1, 11, 2000⟩ }

/-- In-range state with day 30 of a 31-day month (for the day edit). -/
def pD30 : Preferences :=
  { Preferences.default with date := ⟨0, 0, 0, 30, 1, 2000⟩ }

/-- In-range state on 29 February 2000 (for the year edit). -/
def pLeap : Preferences :=
  { Preferences.default with date := ⟨0, 0, 0, 29, 2, 2000⟩ }

/-- Preferences with the default watering window `(0, 0, 0, 1)` set. -/
def pW : Preferences :=
  { Preferences.default with watering := some (0, 0, 0, 1) }

/-- Preferences with watering window 22:00-06:00 at current time 23:00. -/
def pNight : Preferences :=
  { Preferences.default with
      watering := some (0, 22, 0, 6)
      date := ⟨0, 0, 23, 1, 1, 2000⟩ }

/-- Input stream holding Up and Down high simultaneously. -/
def inpBoth : ℕ → Input :=
  fun _ => ⟨true, true, false, false, true, 0, 0⟩

/-- Input stream pressing only Select. -/
def inpSel : ℕ → Input :=
  fun _ => ⟨false, false, true, false, true, 0, 0⟩

/-- Input stream whose smoke detector reads high exactly at poll 0. -/
def inpFire : ℕ → Input :=
  fun n => ⟨false, false, false, n == 0, true, 0, 0⟩

theorem tick_time_of_sec_lt (p : Preferences) (h : p.date.sec + 1 < 60) :
    tick_time p = p := by
  unfold tick_time
  rw [if_neg]
  omega

theorem mainRun_frozen (inp : ℕ → Input) :
    ∀ (fuel c : ℕ) (s : MainState),
      s.button_cooldown = 50 → s.wait_time = 0 → s.current_screen_index = 0 →
      mainRun inp fuel c s = RunResult.running s (c + fuel) := by
  intro fuel
  induction fuel with
  | zero =>
      intro c s _ _ _
      simp [mainRun]
  | succ f ih =>
      intro c s h50 hwt hscr
      have hbu : button_usable s.button_cooldown = false := by
        rw [h50]; rfl
      have hgate : ∀ k, render_gate s k = k := by
        intro k; unfold render_gate; rw [hscr]; rfl
      have hrec : mainRun inp f (c + 1) s = RunResult.running s (c + (f + 1)) := by
        rw [ih (c + 1) s h50 hwt hscr]
        congr 1
        omega
      have hs : ({ s with prefs := s.prefs } : MainState) = s := rfl
      by_cases hu : (inp c).up
      · have hsu : should_update (inp c) s.wait_time s.prefs
            = (s.prefs, true, RefreshAction.UP) := by
          rw [hwt]; unfold should_update; simp [hu]
        simp only [mainRun, hsu, hs, hbu, if_true, Bool.false_eq_true, if_false]
        rw [hgate, hrec]
      · by_cases hd : (inp c).down
        · have hsu : should_update (inp c) s.wait_time s.prefs
              = (s.prefs, true, RefreshAction.DOWN) := by
            rw [hwt]; unfold should_update; simp [hu, hd]
          simp only [mainRun, hsu, hs, hbu, if_true, Bool.false_eq_true, if_false]
          rw [hgate, hrec]
        · by_cases hsel : (inp c).select
          · have hsu : should_update (inp c) s.wait_time s.prefs
                = (s.prefs, true, RefreshAction.SELECT) := by
              rw [hwt]; unfold should_update; simp [hu, hd, hsel]
            simp only [mainRun, hsu, hs, hbu, if_true, Bool.false_eq_true, if_false]
            rw [hgate, hrec]
          · have hsu : should_update (inp c) s.wait_time s.prefs
                = (s.prefs, false, RefreshAction.SENSOR) := by
              rw [hwt]; unfold should_update; simp [hu, hd, hsel]
            simp only [mainRun, hsu, hs, Bool.false_eq_true, if_false]
            exact hrec

theorem fire_alarm_loop_forces (inp : ℕ → Input) :
    ∀ (k c : ℕ) (p : Preferences) (a : Actuators),
      (∀ j, j ≤ k → (inp (c + j)).fire = true) →
      fire_alarm_loop inp (k + 1) c p a
        = (0, c + (k + 1), tick_time^[k + 1] p, ⟨true, false, true⟩, true) := by
  intro k
  induction k with
  | zero =>
      intro c p a h
      have h0 : (inp c).fire = true := by simpa using h 0 (le_refl 0)
      simp [fire_alarm_loop, h0]
  | succ k ih =>
      intro c p a h
      have h0 : (inp c).fire = true := by simpa using h 0 (Nat.zero_le _)
      have hrest : ∀ j, j ≤ k → (inp (c + 1 + j)).fire = true := by
        intro j hj
        have hj' := h (j + 1) (by omega)
        have he : c + (j + 1) = c + 1 + j := by omega
        rwa [he] at hj'
      have hrec := ih (c + 1) (tick_time p) ⟨true, false, true⟩ hrest
      rw [fire_alarm_loop, if_pos h0, hrec]
      have he1 : c + 1 + (k + 1) = c + (k + 1 + 1) := by omega
      rw [he1, ← Function.iterate_succ_apply]

theorem fire_alarm_loop_exit (inp : ℕ → Input) :
    ∀ (n fuel c : ℕ) (p : Preferences) (a : Actuators),
      (∀ j, j < n → (inp (c + j)).fire = true) →
      (inp (c + n)).fire = false →
      n < fuel →
      fire_alarm_loop inp fuel c p a
        = (fuel - n, c + n + 1, tick_time^[n] p,
           (if n = 0 then a else ⟨true, false, true⟩), false) := by
  intro n
  induction n with
  | zero =>
      intro fuel c p a _ hf hlt
      obtain ⟨m, rfl⟩ : ∃ m, fuel = m + 1 := ⟨fuel - 1, by omega⟩
      have hf0 : (inp c).fire = false := by simpa using hf
      rw [fire_alarm_loop, if_neg (by simp [hf0])]
      simp
  | succ n ih =>
      intro fuel c p a hT hf hlt
      obtain ⟨m, rfl⟩ : ∃ m, fuel = m + 1 := ⟨fuel - 1, by omega⟩
      have h0 : (inp c).fire = true := by simpa using hT 0 (by omega)
      have hrest : ∀ j, j < n → (inp (c + 1 + j)).fire = true := by
        intro j hj
        have hj' := hT (j + 1) (by omega)
        have he : c + (j + 1) = c + 1 + j := by omega
        rwa [he] at hj'
      have hf' : (inp (c + 1 + n)).fire = false := by
        have he : c + (n + 1) = c + 1 + n := by omega
        rwa [he] at hf
      have hrec := ih m (c + 1) (tick_time p) ⟨true, false, true⟩ hrest hf' (by omega)
      rw [fire_alarm_loop, if_pos h0, hrec]
      have he1 : c + 1 + n + 1 = c + (n + 1) + 1 := by omega
      have he2 : m - n = m + 1 - (n + 1) := by omega
      rw [he1, he2, ← Function.iterate_succ_apply, ite_self]
      simp

theorem fire_override_exit (inp : ℕ → Input) :
    ∀ (n fuel c : ℕ) (p : Preferences) (a : Actuators),
      (∀ j, j < n → (inp (c + j)).fire = true) →
      (inp (c + n)).fire = false →
      n < fuel →
      fire_override inp fuel c true p a
        = (fuel - n, c + n + 1, tick_time^[n] p,
           ⟨false, a.roof_vent, false⟩, false) := by
  intro n fuel c p a hT hf hlt
  unfold fire_override
  rw [if_pos rfl, fire_alarm_loop_exit inp n fuel c p a hT hf hlt]
  rcases n with _ | n
  · simp only [if_pos rfl, Bool.false_eq_true, if_false]
    cases hr : a.roof_vent <;> simp [hr]
  · simp only [Nat.succ_ne_zero, if_false, Bool.false_eq_true]
    cases hr : a.roof_vent <;> simp [hr]

/-- Claim C1: refuted on the code (code bug).  Iterating `tick_time`
31,536,000 times from `(0, 0, 0, 1, 1, 2001)` leaves the calendar
exactly where it started — year 2001, not 2002 — because `tick_time`
returns without writing the incremented second back whenever
`sec + 1 < 60`, so from any state with `sec = 0` it is the identity. -/
theorem tick_time_year_frozen :
    tick_time^[31536000] c1Start = c1Start ∧
    c1Start.date = ⟨0, 0, 0, 1, 1, 2001⟩ := by
  constructor
  · exact Function.iterate_fixed (tick_time_of_sec_lt c1Start (by decide)) 31536000
  · rfl

/-- Claim C2 counterexample: from the fully in-range state
`(59, 59, 0, 1, 1, 2000)` a single `tick_time` produces minute 60, so a
mutating operation listed in the claim maps an in-range state to an
out-of-range one. -/
theorem tick_time_range_counterexample :
    Valid p5959.date ∧ ¬ Valid (tick_time p5959).date := by
  exact ⟨by decide, by decide⟩

/-- Claim C2 as amended: the minute and hour edits always keep every
field in range, but (i) `tick_time` can produce minute 60 (second 59,
minute 59), (ii) the month edit can produce month 0 (from month 11),
(iii) the day edit can produce day 0 (from day 30 of a 31-day month),
and (iv) the year edit can invalidate day 29 of February when leaving a
leap year. -/
theorem edit_range_amended :
    (∀ p : Preferences, Valid p.date →
        Valid (minute_up p).date ∧ Valid (minute_down p).date ∧
        Valid (hour_up p).date ∧ Valid (hour_down p).date)
  ∧ (Valid p5959.date ∧ (tick_time p5959).date.min = 60)
  ∧ (Valid pM11.date ∧ (month_up pM11).date.month = 0)
  ∧ (Valid pD30.date ∧ (day_up pD30).date.day = 0)
  ∧ (Valid pLeap.date ∧ ¬ Valid (year_up pLeap).date) := by
  refine ⟨?_, ⟨by decide, by decide⟩, ⟨by decide, by decide⟩,
    ⟨by decide, by decide⟩, ⟨by decide, by decide⟩⟩
  intro p h
  unfold Valid at h ⊢
  unfold minute_up minute_down hour_up hour_down
  dsimp only
  omega

/-- Witness for the amended claim C2, at the boot-default state. -/
theorem edit_range_amended_witness :
    Valid Preferences.default.date ∧ Valid (minute_up Preferences.default).date :=
  ⟨by decide, (edit_range_amended.1 Preferences.default (by decide)).1⟩

/-- Claim C3 counterexample: humidity 0 is below the default band
`(0.6, 0.7)` and no watering window is set, so the claimed OR is true —
yet after the sensor-poll branch the sprinkler output is low, because
the watering-time write overwrites the humidity-threshold write. -/
theorem sprinkler_or_counterexample :
    (sensor_branch 70 0 Preferences.default ⟨false, false, false⟩).sprinklers = false
  ∧ ((0 : ℚ) < Preferences.default.humidity.1 ∨ (0 : ℚ) > Preferences.default.humidity.2)
  ∧ is_watering_time Preferences.default = false := by
  refine ⟨rfl, Or.inl (by norm_num [Preferences.default]), rfl⟩

/-- Claim C3 as amended: after the sensor-poll branch runs, the
sprinkler output equals `is_watering_time(prefs)` alone — the
humidity-threshold write is always overwritten by the schedule write
(last writer wins), for every reading, preferences and prior pin state. -/
theorem sprinkler_overwrite :
    ∀ (tempF hum : ℚ) (p : Preferences) (a : Actuators),
      (sensor_branch tempF hum p a).sprinklers = is_watering_time p := by
  intro tempF hum p a
  rfl

/-- Claim C4: refuted on the code (code bug).  `tick_buttons` does
compute the decrement (50 becomes 49 on the callee's copy), but the
`u8` counter is passed by value, so in the main loop the counter stays
50 for every input stream and any number of ticks, `button_usable`
stays false, and no Up/Down navigation is ever accepted. -/
theorem cooldown_stuck :
    tick_buttons 50 = 49
  ∧ button_usable 50 = false
  ∧ greenhouseInit.button_cooldown = 50
  ∧ (∀ (inp : ℕ → Input) (fuel : ℕ),
        mainRun inp fuel 0 greenhouseInit = RunResult.running greenhouseInit fuel) := by
  refine ⟨rfl, rfl, rfl, ?_⟩
  intro inp fuel
  simpa using mainRun_frozen inp fuel 0 greenhouseInit rfl rfl rfl

/-- Claim C5: refuted on the code (code bug).  With the window
`(0, 0, 0, 1)` set, an Up or Down press in any of the four sub-field
loops leaves `preferences.watering` (indeed all of `preferences`)
unchanged: `watering.unwrap()` yields a temporary copy of the tuple and
the field assignment lands on that copy. -/
theorem watering_press_noop :
    pW.watering = some (0, 0, 0, 1)
  ∧ watering_up_press pW 0 = pW ∧ watering_up_press pW 1 = pW
  ∧ watering_up_press pW 2 = pW ∧ watering_up_press pW 3 = pW
  ∧ watering_down_press pW 0 = pW ∧ watering_down_press pW 1 = pW
  ∧ watering_down_press pW 2 = pW ∧ watering_down_press pW 3 = pW :=
  ⟨rfl, rfl, rfl, rfl, rfl, rfl, rfl, rfl, rfl⟩

/-- Claim C6: refuted on the code (code bug).  Pressing Up and Down
simultaneously in the first watering sub-field loop ends the session at
once with `preferences.watering` still equal to its prior value
`some (0, 0, 0, 1)` — NOT `none`: the remove flag only breaks out of the
loops and skips the legality check, and nothing ever assigns `None`. -/
theorem remove_gesture_keeps_window :
    watering_session inpBoth 10 0 false pW = some (9, 1, true, pW, false)
  ∧ pW.watering = some (0, 0, 0, 1) :=
  ⟨rfl, rfl⟩

/-- Claim C7 counterexample: for EVERY input stream (hence every button
sequence) and every number of polls, the main loop stays frozen in its
initial state — in particular it never aborts (never reaches any
`unwrap` panic) and `entered_watering` stays false, because the cooldown
counter is stuck at 50 and `button_usable` never holds, so the SELECT
handler (and with it the watering-window edit session) is unreachable
from the button interface. -/
theorem watering_editor_unreachable :
    (∀ (inp : ℕ → Input) (fuel : ℕ),
        mainRun inp fuel 0 greenhouseInit = RunResult.running greenhouseInit fuel)
  ∧ greenhouseInit.entered_watering = false := by
  refine ⟨?_, rfl⟩
  intro inp fuel
  simpa using mainRun_frozen inp fuel 0 greenhouseInit rfl rfl rfl

/-- Claim C7 as amended: IF the watering-window edit session is run with
the boot-default preferences (watering unset) and only Select is pressed
in each of the four sub-field loops, the post-edit legality check
reaches `unwrap()` on `None` — the panic (modelled `none`); but the
session itself is unreachable from the button interface, since the main
loop never accepts a button action (cooldown bug). -/
theorem select_only_session_aborts :
    watering_session inpSel 4 0 false Preferences.default = none
  ∧ Preferences.default.watering = none
  ∧ (∀ (inp : ℕ → Input) (fuel : ℕ),
        mainRun inp fuel 0 greenhouseInit = RunResult.running greenhouseInit fuel) := by
  refine ⟨rfl, rfl, ?_⟩
  intro inp fuel
  simpa using mainRun_frozen inp fuel 0 greenhouseInit rfl rfl rfl

/-- Claim C8: confirmed.  (1) While every smoke poll reads high, each
alarm-loop iteration leaves the outputs forced: sprinklers high, roof
vent low, buzzer high (the state after `k + 1` such iterations, observed
by exhausting exactly that much fuel, is the forced one, with the
calendar ticked once per iteration).  (2) When the `n`-th poll reads
low after `n` high polls, the fire-override block exits with buzzer low,
sprinklers low, and the roof vent equal to its pre-alarm value — for
both the pre-alarm-open and pre-alarm-closed cases, since `a` is
arbitrary. -/
theorem fire_override_spec :
    (∀ (inp : ℕ → Input) (k c : ℕ) (p : Preferences) (a : Actuators),
        (∀ j, j ≤ k → (inp (c + j)).fire = true) →
        fire_alarm_loop inp (k + 1) c p a
          = (0, c + (k + 1), tick_time^[k + 1] p, ⟨true, false, true⟩, true))
  ∧ (∀ (inp : ℕ → Input) (n fuel c : ℕ) (p : Preferences) (a : Actuators),
        (∀ j, j < n → (inp (c + j)).fire = true) →
        (inp (c + n)).fire = false →
        n < fuel →
        fire_override inp fuel c true p a
          = (fuel - n, c + n + 1, tick_time^[n] p,
             ⟨false, a.roof_vent, false⟩, false)) :=
  ⟨fire_alarm_loop_forces, fire_override_exit⟩

/-- Witness for claim C8: one high poll then a low poll, starting with
the roof vent open (so the exit restores it to open). -/
theorem fire_override_spec_witness :
    fire_alarm_loop inpFire 1 0 Preferences.default ⟨false, true, false⟩
      = (0, 1, tick_time^[1] Preferences.default, ⟨true, false, true⟩, true)
  ∧ fire_override inpFire 3 0 true Preferences.default ⟨false, true, false⟩
      = (2, 2, tick_time^[1] Preferences.default, ⟨false, true, false⟩, false) := by
  constructor
  · exact fire_override_spec.1 inpFire 0 0 Preferences.default ⟨false, true, false⟩
      (fun j hj => by rw [Nat.le_zero.mp hj]; rfl)
  · exact fire_override_spec.2 inpFire 1 3 0 Preferences.default ⟨false, true, false⟩
      (fun j hj => by rw [Nat.lt_one_iff.mp hj]; rfl)
      rfl (by decide)

/-- Claim C9: confirmed.  `is_watering_time` is false when no window is
set; with a window `(m0, h0, m1, h1)` set it is true exactly when the
current minute is in `[m0, m1]` and the current hour is in `[h0, h1]`,
each bound checked independently; and for the window 22:00-06:00 at
time 23:00 it returns false (hour 23 is not in `[22, 6]`). -/
theorem is_watering_time_spec :
    (∀ p : Preferences, p.watering = none → is_watering_time p = false)
  ∧ (∀ (p : Preferences) (m0 h0 m1 h1 : ℕ), p.watering = some (m0, h0, m1, h1) →
       (is_watering_time p = true ↔
         (m0 ≤ p.date.min ∧ p.date.min ≤ m1 ∧ h0 ≤ p.date.hour ∧ p.date.hour ≤ h1)))
  ∧ pNight.watering = some (0, 22, 0, 6)
  ∧ pNight.date.hour = 23 ∧ pNight.date.min = 0
  ∧ is_watering_time pNight = false := by
  refine ⟨?_, ?_, rfl, rfl, rfl, rfl⟩
  · intro p h
    unfold is_watering_time
    rw [h]
  · intro p m0 h0 m1 h1 h
    unfold is_watering_time
    rw [h]
    simp [Bool.and_eq_true, decide_eq_true_eq, ge_iff_le, and_assoc]

/-- Witness for claim C9: the boot default (no window) and the
22:00-06:00 window at 23:00. -/
theorem is_watering_time_spec_witness :
    is_watering_time Preferences.default = false
  ∧ (is_watering_time pNight = true ↔
      (0 ≤ pNight.date.min ∧ pNight.date.min ≤ 0 ∧
       22 ≤ pNight.date.hour ∧ pNight.date.hour ≤ 6)) :=
  ⟨is_watering_time_spec.1 Preferences.default rfl,
   is_watering_time_spec.2.1 pNight 0 22 0 6 rfl⟩

/-- Claim C10 counterexample: a single Up action maps screen index 0 to
index 1 (Up iterates forward, `+1`), not to index 4 as claimed. -/
theorem up_from_zero_counterexample :
    next_screen_index 0 true = 1 ∧ next_screen_index 0 true ≠ 4 :=
  ⟨by decide, by decide⟩

/-- Claim C10 as amended: the index arithmetic inside `next_screen`
wraps in both directions — five consecutive Down updates cycle
0, 4, 3, 2, 1 back to 0, Down wraps 0 to 4, Up wraps 4 to 0 — but a
single Up from 0 lands on index 1, not 4; moreover, the main loop's
`current_screen_index` itself never changes (the index is passed by
value and `next_screen`'s result is discarded, and no navigation is
ever accepted), so the displayed screen stays at index 0. -/
theorem screen_cycle_amended :
    next_screen_index 0 false = 4
  ∧ next_screen_index 4 false = 3
  ∧ next_screen_index 3 false = 2
  ∧ next_screen_index 2 false = 1
  ∧ next_screen_index 1 false = 0
  ∧ next_screen_index (next_screen_index (next_screen_index
      (next_screen_index (next_screen_index 0 false) false) false) false) false = 0
  ∧ next_screen_index 0 true = 1
  ∧ next_screen_index 4 true = 0
  ∧ greenhouseInit.current_screen_index = 0
  ∧ (∀ (inp : ℕ → Input) (fuel : ℕ),
        mainRun inp fuel 0 greenhouseInit = RunResult.running greenhouseInit fuel) := by
  refine ⟨by decide, by decide, by decide, by decide, by decide, by decide,
    by decide, by decide, rfl, ?_⟩
  intro inp fuel
  simpa using mainRun_frozen inp fuel 0 greenhouseInit rfl rfl rfl
